import Mathlib

/-!
Verification of the Operation Stormcloud frontend (BEAR AI assistant):
a shallow embedding of the PIIGuard scanner, the zustand app store, the
App.tsx handlers and the StatusBar banding function, with theorems about
the spec's claims on them.

Conventions: TypeScript strings are `String`/`List Char`; JS numbers used
as timestamps are `Nat`; telemetry percentages are `ℚ` (exact arithmetic
in place of IEEE floats); the fallible backend call is `Except String String`.
Regex tests (`regex.test(text)`) are embedded as existence of a match:
for each pattern we compute, from a start position, the list of possible
end positions of a match (backtracking existence semantics), with `\b`
word boundaries modelled explicitly.
-/

namespace BearAI

/-! ## PIIGuard scanner (src/unnamed/part_002, the `patterns` array) -/

/-- JS `\w` word characters, as used by the `\b` boundary assertion. -/
def isWordChar (c : Char) : Bool := c.isAlpha || c.isDigit || c == '_'

/-- Character at position `i` satisfies `p` (out of range counts as no). -/
def testAt (p : Char → Bool) (s : List Char) (i : Nat) : Bool :=
  match s.get? i with
  | some c => p c
  | none => false

/-- Character at position `i` equals `c`. -/
def chEq (s : List Char) (i : Nat) (c : Char) : Bool := testAt (fun x => x == c) s i

/-- Word-character test at a position, out of range being non-word. -/
def wordAt (s : List Char) (i : Nat) : Bool := testAt isWordChar s i

/-- JS regex `\b`: the word-ness of the characters on the two sides of
position `i` differs (positions outside the string are non-word). -/
def boundary (s : List Char) (i : Nat) : Bool :=
  wordAt s i != (if i == 0 then false else wordAt s (i - 1))

/-- `\d{n}` starting at position `i`. -/
def digitRun (s : List Char) (i n : Nat) : Bool :=
  (List.range n).all (fun k => testAt Char.isDigit s (i + k))

/-- SSN pattern `\b\d{3}-\d{2}-\d{4}\b`: match ends from start `i`. -/
def ssnEndsAt (s : List Char) (i : Nat) : List Nat :=
  if boundary s i && digitRun s i 3 && chEq s (i + 3) '-' && digitRun s (i + 4) 2
      && chEq s (i + 6) '-' && digitRun s (i + 7) 4 && boundary s (i + 11)
  then [i + 11] else []

/-- Email local part class `[A-Za-z0-9._%+-]`. -/
def isLocalChar (c : Char) : Bool :=
  c.isAlpha || c.isDigit || c == '.' || c == '_' || c == '%' || c == '+' || c == '-'

/-- Email domain class `[A-Za-z0-9.-]`. -/
def isDomainChar (c : Char) : Bool := c.isAlpha || c.isDigit || c == '.' || c == '-'

/-- TLD class `[A-Z|a-z]` from the source: letters and, as written, the
literal bar character inside the class. -/
def isTldChar (c : Char) : Bool := c.isAlpha || c == '|'

/-- Length of the maximal run of characters satisfying `p` from `i`. -/
def runLen (p : Char → Bool) (s : List Char) (i : Nat) : Nat :=
  ((s.drop i).takeWhile p).length

/-- End positions of a nonempty run `p+` starting at `i`. -/
def plusEnds (p : Char → Bool) (s : List Char) (i : Nat) : List Nat :=
  (List.range (runLen p s i)).map (fun k => i + k + 1)

/-- Email pattern `\b[A-Za-z0-9._%+-]+@[A-Za-z0-9.-]+\.[A-Z|a-z]{2,}\b`:
match ends from start `i`. -/
def emailEndsAt (s : List Char) (i : Nat) : List Nat :=
  if boundary s i then
    (plusEnds isLocalChar s i).flatMap (fun j =>
      if chEq s j '@' then
        (plusEnds isDomainChar s (j + 1)).flatMap (fun k =>
          if chEq s k '.' then
            (plusEnds isTldChar s (k + 1)).filter (fun l => k + 3 ≤ l && boundary s l)
          else [])
      else [])
  else []

/-- JS `\s` whitespace (the common members; no pattern in the claims uses
the exotic Unicode ones). -/
def isSpaceLike (c : Char) : Bool :=
  c == ' ' || c == '\t' || c == '\n' || c == '\r' || c == '\x0b' || c == '\x0c'

/-- Phone separator class `[-.\s]`. -/
def isPhoneSep (c : Char) : Bool := c == '-' || c == '.' || isSpaceLike c

/-- End positions of an optional single character satisfying `p` at `i`. -/
def optCharEnds (s : List Char) (i : Nat) (p : Char → Bool) : List Nat :=
  i :: (if testAt p s i then [i + 1] else [])

/-- Optional country code group `(?:\+?1[-.\s]?)?`: possible end positions. -/
def countryEnds (s : List Char) (i : Nat) : List Nat :=
  i :: ((optCharEnds s i (fun c => c == '+')).flatMap (fun j =>
    if chEq s j '1' then optCharEnds s (j + 1) isPhoneSep else []))

/-- Phone pattern `\b(?:\+?1[-.\s]?)?\(?\d{3}\)?[-.\s]?\d{3}[-.\s]?\d{4}\b`:
match ends from start `i`. -/
def phoneEndsAt (s : List Char) (i : Nat) : List Nat :=
  if boundary s i then
    (countryEnds s i).flatMap (fun a =>
      (optCharEnds s a (fun c => c == '(')).flatMap (fun b =>
        if digitRun s b 3 then
          (optCharEnds s (b + 3) (fun c => c == ')')).flatMap (fun c0 =>
            (optCharEnds s c0 isPhoneSep).flatMap (fun d =>
              if digitRun s d 3 then
                ((optCharEnds s (d + 3) isPhoneSep).filter
                  (fun e => digitRun s e 4 && boundary s (e + 4))).map (fun e => e + 4)
              else []))
        else []))
  else []

/-- Credit card separator class `[-\s]`. -/
def isCcSep (c : Char) : Bool := c == '-' || isSpaceLike c

/-- One credit card group `\d{4}[-\s]?`: possible end positions. -/
def ccGroupEnds (s : List Char) (i : Nat) : List Nat :=
  if digitRun s i 4 then optCharEnds s (i + 4) isCcSep else []

/-- Credit card pattern `\b(?:\d{4}[-\s]?){3}\d{4}\b`: match ends from `i`. -/
def ccEndsAt (s : List Char) (i : Nat) : List Nat :=
  if boundary s i then
    (ccGroupEnds s i).flatMap (fun a =>
      (ccGroupEnds s a).flatMap (fun b =>
        ((ccGroupEnds s b).filter (fun c0 => digitRun s c0 4 && boundary s (c0 + 4))).map
          (fun c0 => c0 + 4)))
  else []

/-- One IP octet plus dot `[0-9]{1,3}\.`: possible end positions. -/
def ipOctDotEnds (s : List Char) (i : Nat) : List Nat :=
  (([1, 2, 3] : List Nat).filter (fun m => digitRun s i m && chEq s (i + m) '.')).map
    (fun m => i + m + 1)

/-- IP pattern `\b(?:[0-9]{1,3}\.){3}[0-9]{1,3}\b`: match ends from `i`. -/
def ipEndsAt (s : List Char) (i : Nat) : List Nat :=
  if boundary s i then
    (ipOctDotEnds s i).flatMap (fun a =>
      (ipOctDotEnds s a).flatMap (fun b =>
        (ipOctDotEnds s b).flatMap (fun c0 =>
          (([1, 2, 3] : List Nat).filter (fun m => digitRun s c0 m && boundary s (c0 + m))).map
            (fun m => c0 + m))))
  else []

/-- The PII categories of the `patterns` array, in source order. -/
inductive PIICategory where
  | SSN
  | Email
  | Phone
  | CreditCard
  | IPAddress
deriving DecidableEq, Repr

/-- The display label attached to each pattern in the source. -/
def PIICategory.label : PIICategory → String
  | .SSN => "SSN"
  | .Email => "Email"
  | .Phone => "Phone"
  | .CreditCard => "Credit Card"
  | .IPAddress => "IP Address"

/-- Match end positions for the category's regex from start position `i`. -/
def endsAt : PIICategory → List Char → Nat → List Nat
  | .SSN => ssnEndsAt
  | .Email => emailEndsAt
  | .Phone => phoneEndsAt
  | .CreditCard => ccEndsAt
  | .IPAddress => ipEndsAt

/-- `regex.test(text)`: some start position admits a match. -/
def testCat (c : PIICategory) (s : List Char) : Bool :=
  (List.range (s.length + 1)).any (fun i => !(endsAt c s i).isEmpty)

/-- The ordered list of registered categories (the `patterns` array). -/
def patterns : List PIICategory :=
  [.SSN, .Email, .Phone, .CreditCard, .IPAddress]

/-- The `detected` list computed by PIIGuard: the categories, in
registration order, whose regex tests true on the text. -/
def scan (s : List Char) : List PIICategory :=
  patterns.filter (fun c => testCat c s)

/-! ## Redaction (modelled from the spec, §4.2) -/

/-- The category-only placeholder token of the spec, e.g. `[REDACTED:SSN]`. -/
def placeholder (c : PIICategory) : List Char :=
  ("[REDACTED:" ++ c.label ++ "]").data

/-- Largest element of a list of ends (greedy match length). -/
def maxOf : List Nat → Option Nat
  | [] => none
  | a :: as => some (as.foldl max a)

/-- First category (in registration order) matching at position `i`,
with its greedy match end. -/
def bestEndAt (s : List Char) (i : Nat) : Option (PIICategory × Nat) :=
  patterns.findSome? (fun c =>
    match maxOf (endsAt c s i) with
    | some e => some (c, e)
    | none => none)

/-- Left-to-right masking pass: at each position, if some category matches
there, emit its placeholder and skip past the match, else copy the
character. Every pattern consumes at least one character, so the
`max (e - i) 1` jump equals `e - i`; `fuel` (one per emitted step) makes
the recursion structural and is chosen large enough never to run out. -/
def redactAux (s : List Char) (fuel i : Nat) : List Char :=
  match fuel with
  | 0 => s.drop i
  | f + 1 =>
    if i < s.length then
      match bestEndAt s i with
      | some (c, e) => placeholder c ++ redactAux s f (i + max (e - i) 1)
      | none =>
        match s.get? i with
        | some ch => ch :: redactAux s f (i + 1)
        | none => []
    else []

/-- Modelled from the spec: the repository's RedactionPipeline `redact`
operation is not in the visible frontend source (only the PIIGuard
scanner and the send/ingest call sites are). Per §4.2, `redact(payload)`
returns `{redactedText, findings}` where every finding's matched span is
replaced in `redactedText` by the category placeholder, and when
`findings` is empty the payload is returned unchanged. The findings are
the embedded PIIGuard scan of the payload. -/
def redact (payload : String) : String × List PIICategory :=
  (String.mk (redactAux payload.data (payload.data.length + 1) 0), scan payload.data)

/-- Substring containment helper: `needle` occurs verbatim in `hay`. -/
def prefixAt : List Char → List Char → Bool
  | [], _ => true
  | _ :: _, [] => false
  | a :: as, b :: bs => a == b && prefixAt as bs

/-- Substring containment: some suffix of `hay` starts with `needle`. -/
def containsSub (needle hay : List Char) : Bool :=
  match hay with
  | [] => prefixAt needle []
  | _ :: t => prefixAt needle hay || containsSub needle t

/-! ## App store (src/BEAR-LLM-assistant/src/stores/appStore.ts) -/

/-- Message roles of the store's `Message` interface. -/
inductive Role where
  | user
  | assistant
  | system
deriving DecidableEq, Repr

/-- The store's `Message` interface. -/
structure Message where
  role : Role
  content : String
  timestamp : Nat
deriving DecidableEq, Repr

/-- The store's `Document` interface (the TS `any` metadata is modelled
as the spec's string-to-scalar mapping). -/
structure Document where
  id : String
  filename : String
  content : String
  pii_removed : Bool
  metadata : List (String × String)
deriving DecidableEq, Repr

/-- The store's `Conversation` interface. -/
structure Conversation where
  id : String
  title : String
  timestamp : Nat
  messages : List Message
deriving DecidableEq, Repr

/-- The telemetry snapshot consumed by StatusBar (`systemStatus`). -/
structure SystemHealth where
  cpu_usage : ℚ
  memory_usage : ℚ
  gpu_usage : Option ℚ
  temperature : Option ℚ
  is_safe : Bool
deriving DecidableEq, Repr

/-- The zustand `AppStore` state fields. -/
structure AppStore where
  messages : List Message
  documents : List Document
  selectedModel : String
  availableModels : List String
  isProcessing : Bool
  systemHealth : Option SystemHealth
  conversations : List Conversation
  currentConversationId : String
deriving DecidableEq, Repr

/-- The initial store state passed to `create` (its bootstrap
conversation timestamp `Date.now()` is the parameter `now`). -/
def initialState (now : Nat) : AppStore where
  messages := []
  documents := []
  selectedModel := "llama2-7b"
  availableModels := ["llama2-7b", "mistral-7b", "phi-2"]
  isProcessing := false
  systemHealth := none
  conversations := [{ id := "1", title := "New Chat", timestamp := now, messages := [] }]
  currentConversationId := "1"

/-- `addMessage: (message) => set((state) => ({ messages: [...state.messages, message] }))`. -/
def addMessage (m : Message) (s : AppStore) : AppStore :=
  { s with messages := s.messages ++ [m] }

/-- `clearMessages: () => set({ messages: [] })`. -/
def clearMessages (s : AppStore) : AppStore :=
  { s with messages := [] }

/-- `addDocument: (document) => set((state) => ({ documents: [...state.documents, document] }))`. -/
def addDocument (d : Document) (s : AppStore) : AppStore :=
  { s with documents := s.documents ++ [d] }

/-- `setSelectedModel: (model) => set({ selectedModel: model })`. -/
def setSelectedModel (model : String) (s : AppStore) : AppStore :=
  { s with selectedModel := model }

/-- `setAvailableModels: (models) => set({ availableModels: models })`. -/
def setAvailableModels (models : List String) (s : AppStore) : AppStore :=
  { s with availableModels := models }

/-- `addConversation: (conversation) => set((state) => ({ conversations: [...state.conversations, conversation] }))`. -/
def addConversation (c : Conversation) (s : AppStore) : AppStore :=
  { s with conversations := s.conversations ++ [c] }

/-- `setCurrentConversation: (id) => set({ currentConversationId: id })`. -/
def setCurrentConversation (id : String) (s : AppStore) : AppStore :=
  { s with currentConversationId := id }

/-! ## App.tsx handlers -/

/-- `handleNewChat` from App.tsx: builds a conversation whose id is
`Date.now().toString()` (parameter `now`), title `'New Chat'`, empty
messages, then `addConversation`, `setCurrentConversation`,
`clearMessages` in that order. -/
def handleNewChat (now : Nat) (s : AppStore) : AppStore :=
  let newConversation : Conversation :=
    { id := toString now, title := "New Chat", timestamp := now, messages := [] }
  clearMessages (setCurrentConversation newConversation.id (addConversation newConversation s))

/-- `handleModelSelect` from ModelSelector.tsx: unconditionally
`setSelectedModel(model)` (the dropdown-close is presentation state). -/
def handleModelSelect (model : String) (s : AppStore) : AppStore :=
  setSelectedModel model s

/-- JS `String.prototype.trim()`: strip leading and trailing whitespace. -/
def jsTrim (s : String) : String :=
  String.mk (((s.data.dropWhile isSpaceLike).reverse.dropWhile isSpaceLike).reverse)

/-- The `message` argument handed to `invoke('send_message', ...)` by
`handleSendMessage`: the trimmed input, verbatim, unless the guard
(`!message.trim() || isLoading`) returns early. -/
def dispatchedMessage (isLoading : Bool) (message : String) : Option String :=
  if jsTrim message == "" || isLoading then none else some (jsTrim message)

/-- `handleSendMessage` from App.tsx as a store transition: after the
guard, append the user message; on backend success append the assistant
response, on backend failure append a system message `Error: <error>`.
The backend round-trip result is the `backend` parameter; `now1`/`now2`
are the two `Date.now()` readings. -/
def handleSendMessage (isLoading : Bool) (message : String)
    (backend : Except String String) (now1 now2 : Nat) (s : AppStore) : AppStore :=
  if jsTrim message == "" || isLoading then s
  else
    let userMessage := jsTrim message
    let s1 := addMessage { role := .user, content := userMessage, timestamp := now1 } s
    match backend with
    | .ok response => addMessage { role := .assistant, content := response, timestamp := now2 } s1
    | .error err => addMessage { role := .system, content := "Error: " ++ err, timestamp := now2 } s1

/-! ## StatusBar banding (src/BEAR-LLM-assistant/src/components/StatusBar.tsx) -/

/-- The three colors returned by `getStatusColor`. -/
inductive StatusColor where
  | green
  | yellow
  | red
deriving DecidableEq, Repr

/-- `getStatusColor(value, threshold)` from StatusBar.tsx, over exact
rationals in place of JS floats: green below 60% of the threshold,
yellow below 80%, red otherwise. -/
def getStatusColor (value threshold : ℚ) : StatusColor :=
  if value < threshold * (6 / 10) then .green
  else if value < threshold * (8 / 10) then .yellow
  else .red

/-! ## Helper lemmas -/

/-- When a category's test is false, no position admits a match end. -/
theorem testCat_false_endsAt (c : PIICategory) (s : List Char)
    (h : testCat c s = false) : ∀ i ≤ s.length, endsAt c s i = [] := by
  intro i hi
  unfold testCat at h
  rw [List.any_eq_false] at h
  have := h i (by simpa [List.mem_range] using Nat.lt_succ_of_le hi)
  simpa [List.isEmpty_iff] using this

/-- An empty scan means every category's test is false. -/
theorem scan_nil_tests (s : List Char) (h : scan s = []) :
    ∀ c ∈ patterns, testCat c s = false := by
  unfold scan at h
  rw [List.filter_eq_nil_iff] at h
  intro c hc
  simpa using h c hc

/-- If no category matches at `i`, `bestEndAt` finds nothing there. -/
theorem bestEndAt_none (s : List Char) (i : Nat)
    (h : ∀ c ∈ patterns, endsAt c s i = []) : bestEndAt s i = none := by
  have hS := h .SSN (by simp [patterns])
  have hE := h .Email (by simp [patterns])
  have hP := h .Phone (by simp [patterns])
  have hC := h .CreditCard (by simp [patterns])
  have hI := h .IPAddress (by simp [patterns])
  simp [bestEndAt, patterns, List.findSome?_cons, hS, hE, hP, hC, hI, maxOf]

/-- The masking pass is the identity when no position admits a match. -/
theorem redactAux_id (s : List Char)
    (h : ∀ j, j < s.length → bestEndAt s j = none) :
    ∀ fuel i, redactAux s fuel i = s.drop i := by
  intro fuel
  induction fuel with
  | zero => intro i; rfl
  | succ f ih =>
    intro i
    by_cases hi : i < s.length
    · simp only [redactAux]
      rw [if_pos hi, h i hi, List.get?_eq_get hi]
      simp only [List.get_eq_getElem]
      rw [ih (i + 1)]
      exact (List.drop_eq_getElem_cons hi).symm
    · simp only [redactAux]
      rw [if_neg hi]
      exact (List.drop_eq_nil_of_le (Nat.le_of_not_lt hi)).symm

/-! ## Claim theorems -/

/-- Claim C1 (code bug evaluation): on the input `"SSN: 123-45-6789"` the
scanner does report the SSN category, but `handleSendMessage` hands the
original trimmed text — still containing the literal SSN substring — to
the `send_message` backend call: no redaction happens before dispatch. -/
theorem ssn_sent_unredacted :
    scan ("SSN: 123-45-6789").data = [PIICategory.SSN] ∧
    dispatchedMessage false "SSN: 123-45-6789" = some "SSN: 123-45-6789" ∧
    containsSub ("123-45-6789").data ("SSN: 123-45-6789").data = true := by
  refine ⟨by decide, by decide, by decide⟩

/-- Claim C2: on any payload with zero findings, the (spec-modelled)
redaction returns the payload character-for-character unchanged, with an
empty finding list. -/
theorem redact_noop_on_clean (p : String) (h : scan p.data = []) :
    redact p = (p, []) := by
  have hall : ∀ c ∈ patterns, testCat c p.data = false := scan_nil_tests _ h
  have hnone : ∀ j, j < p.data.length → bestEndAt p.data j = none := by
    intro j hj
    exact bestEndAt_none _ _ (fun c hc =>
      testCat_false_endsAt c p.data (hall c hc) j (Nat.le_of_lt hj))
  unfold redact
  rw [h, redactAux_id p.data hnone _ 0, List.drop_zero]

/-- Witness for C2 at the clean input `"hello"`. -/
theorem redact_noop_on_clean_witness :
    scan "hello".data = [] ∧ redact "hello" = ("hello", []) :=
  ⟨by decide, redact_noop_on_clean "hello" (by decide)⟩

/-- Claim C3 (counterexample): `setSelectedModel` succeeds for a name
that is not in the model list at all — a fortiori for one whose state is
not Ready, the store tracking no per-model state whatsoever — and the
previous selection is overwritten rather than retained. -/
theorem setSelectedModel_unchecked_cex :
    (setSelectedModel "not-a-downloaded-model" (initialState 0)).selectedModel
      = "not-a-downloaded-model" ∧
    "not-a-downloaded-model" ∉ (initialState 0).availableModels ∧
    (setSelectedModel "not-a-downloaded-model" (initialState 0)).selectedModel
      ≠ (initialState 0).selectedModel := by
  refine ⟨rfl, by decide, by decide⟩

/-- Claim C3 (amended): `setSelectedModel` unconditionally sets
`selectedModel` to the given name and changes nothing else; there is no
readiness check and no failure path. -/
theorem setSelectedModel_unconditional (model : String) (s : AppStore) :
    (setSelectedModel model s).selectedModel = model ∧
    setSelectedModel model s = { s with selectedModel := model } :=
  ⟨rfl, rfl⟩

/-- Claim C4 (counterexample): `clearMessages` — a store operation, and
one invoked by `handleNewChat` — removes every existing message; and
`addMessage` performs no timestamp check, so appending an older-stamped
message breaks timestamp monotonicity. -/
theorem store_removal_and_order_cex :
    (clearMessages (addMessage ⟨.user, "hi", 5⟩ (initialState 0))).messages = [] ∧
    (addMessage ⟨.user, "hi", 5⟩ (initialState 0)).messages ≠ [] ∧
    ¬ List.Chain' (fun a b : Message => a.timestamp ≤ b.timestamp)
        (addMessage ⟨.user, "later", 0⟩
          (addMessage ⟨.user, "hi", 5⟩ (initialState 0))).messages := by
  refine ⟨rfl, by decide, ?_⟩
  simp [addMessage, initialState, List.chain'_cons]

/-- Claim C4 (amended): `addMessage` appends at the end, preserving the
existing messages and their order; if the log was timestamp-non-decreasing
and the new message's timestamp is at least every existing one, the log
stays timestamp-non-decreasing. -/
theorem addMessage_appends (m : Message) (s : AppStore)
    (hchain : List.Chain' (fun a b : Message => a.timestamp ≤ b.timestamp) s.messages)
    (hle : ∀ x ∈ s.messages, x.timestamp ≤ m.timestamp) :
    (addMessage m s).messages = s.messages ++ [m] ∧
    List.Chain' (fun a b : Message => a.timestamp ≤ b.timestamp)
      (addMessage m s).messages := by
  refine ⟨rfl, ?_⟩
  show List.Chain' _ (s.messages ++ [m])
  rw [List.chain'_append]
  refine ⟨hchain, List.chain'_singleton _, ?_⟩
  intro x hx y hy
  obtain ⟨hne, hxl⟩ := List.mem_getLast?_eq_getLast hx
  have hy' : m = y := by simpa using hy
  have hxm : x ∈ s.messages := by rw [hxl]; exact List.getLast_mem hne
  rw [← hy']
  exact hle x hxm

/-- Witness for C4 on the bootstrap store. -/
theorem addMessage_appends_witness :
    (addMessage ⟨.user, "hi", 5⟩ (initialState 0)).messages
      = (initialState 0).messages ++ [⟨.user, "hi", 5⟩] ∧
    List.Chain' (fun a b : Message => a.timestamp ≤ b.timestamp)
      (addMessage ⟨.user, "hi", 5⟩ (initialState 0)).messages :=
  addMessage_appends ⟨.user, "hi", 5⟩ (initialState 0)
    (by simp [initialState]) (by simp [initialState])

/-- Claim C5 (counterexample): `setCurrentConversation` accepts an id
with no matching conversation — it does not fail with NotFound, and the
resulting `currentConversationId` resolves to no existing conversation. -/
theorem setCurrentConversation_dangling_cex :
    (setCurrentConversation "2" (initialState 0)).currentConversationId = "2" ∧
    ((setCurrentConversation "2" (initialState 0)).conversations.all
      (fun c => c.id != "2")) = true ∧
    setCurrentConversation "2" (initialState 0) ≠ initialState 0 := by
  refine ⟨rfl, by decide, by decide⟩

/-- Claim C5 (amended): `setCurrentConversation` unconditionally updates
only the current-conversation pointer, mutating no conversation and no
message log; it performs no existence check on the id. -/
theorem setCurrentConversation_pointer_only (id : String) (s : AppStore) :
    (setCurrentConversation id s).currentConversationId = id ∧
    setCurrentConversation id s = { s with currentConversationId := id } :=
  ⟨rfl, rfl⟩

/-- Claim C6: for the nonnegative thresholds the code uses (85, 90, 85,
80), `getStatusColor` bands a metric green (nominal) exactly below 60%
of the threshold, yellow (warning) exactly in [60%, 80%), and red
(unsafe) exactly at or above 80%; cpu 95 against threshold 85 is red and
cpu 40 against threshold 85 is green. -/
theorem getStatusColor_banding (v t : ℚ) (ht : 0 ≤ t) :
    (getStatusColor v t = .green ↔ v < t * (6 / 10)) ∧
    (getStatusColor v t = .yellow ↔ t * (6 / 10) ≤ v ∧ v < t * (8 / 10)) ∧
    (getStatusColor v t = .red ↔ t * (8 / 10) ≤ v) ∧
    getStatusColor 95 85 = .red ∧
    getStatusColor 40 85 = .green := by
  have h68 : t * (6 / 10) ≤ t * (8 / 10) := by nlinarith
  refine ⟨?_, ?_, ?_, ?_, ?_⟩
  · unfold getStatusColor
    split_ifs with h1 h2 <;> simp_all
  · unfold getStatusColor
    split_ifs with h1 h2 <;> simp_all [not_lt]
  · unfold getStatusColor
    split_ifs with h1 h2 <;> simp_all [not_lt]
    linarith
  · norm_num [getStatusColor]
  · norm_num [getStatusColor]

/-- Witness for C6 at the code's cpu threshold 85. -/
theorem getStatusColor_banding_witness :
    (getStatusColor 95 85 = .green ↔ (95 : ℚ) < 85 * (6 / 10)) ∧
    (getStatusColor 95 85 = .yellow ↔ (85 : ℚ) * (6 / 10) ≤ 95 ∧ (95 : ℚ) < 85 * (8 / 10)) ∧
    (getStatusColor 95 85 = .red ↔ (85 : ℚ) * (8 / 10) ≤ 95) ∧
    getStatusColor 95 85 = .red ∧
    getStatusColor 40 85 = .green :=
  getStatusColor_banding 95 85 (by norm_num)

/-- Claim C7: on a backend failure, `handleSendMessage` appends the user
message followed by a system-role message carrying the error text, and
every other store field — conversations, current pointer, documents,
model selection — is untouched, so the conversation remains usable (the
handler is a total function; no crash path exists in the embedding). -/
theorem handleSendMessage_error_recovers (message err : String) (now1 now2 : Nat)
    (s : AppStore) (h : jsTrim message ≠ "") :
    (handleSendMessage false message (.error err) now1 now2 s).messages
      = s.messages ++ [⟨.user, jsTrim message, now1⟩, ⟨.system, "Error: " ++ err, now2⟩] ∧
    (handleSendMessage false message (.error err) now1 now2 s).conversations
      = s.conversations ∧
    (handleSendMessage false message (.error err) now1 now2 s).currentConversationId
      = s.currentConversationId ∧
    (handleSendMessage false message (.error err) now1 now2 s).documents
      = s.documents ∧
    (handleSendMessage false message (.error err) now1 now2 s).selectedModel
      = s.selectedModel := by
  have hb : (jsTrim message == "") = false := by simp [h]
  simp [handleSendMessage, addMessage, hb]

/-- Witness for C7 at a concrete failing backend call. -/
theorem handleSendMessage_error_recovers_witness :
    (handleSendMessage false "hi" (.error "backend down") 1 2 (initialState 0)).messages
      = (initialState 0).messages
        ++ [⟨.user, jsTrim "hi", 1⟩, ⟨.system, "Error: " ++ "backend down", 2⟩] ∧
    (handleSendMessage false "hi" (.error "backend down") 1 2 (initialState 0)).conversations
      = (initialState 0).conversations ∧
    (handleSendMessage false "hi" (.error "backend down") 1 2 (initialState 0)).currentConversationId
      = (initialState 0).currentConversationId ∧
    (handleSendMessage false "hi" (.error "backend down") 1 2 (initialState 0)).documents
      = (initialState 0).documents ∧
    (handleSendMessage false "hi" (.error "backend down") 1 2 (initialState 0)).selectedModel
      = (initialState 0).selectedModel :=
  handleSendMessage_error_recovers "hi" "backend down" 1 2 (initialState 0) (by decide)

/-- Claim C8 (counterexample): two `handleNewChat` calls in the same
millisecond produce two conversations with the same id `"7"` — the
generated id is not collision-free within the store's lifetime. -/
theorem handleNewChat_duplicate_id_cex :
    ((handleNewChat 7 (handleNewChat 7 (initialState 0))).conversations.map
      (fun c => c.id)) = ["1", "7", "7"] ∧
    ¬ ((handleNewChat 7 (handleNewChat 7 (initialState 0))).conversations.map
      (fun c => c.id)).Nodup := by
  refine ⟨by decide, by decide⟩

/-- Claim C8 (amended): `handleNewChat` appends a conversation whose id
is the decimal string of the invocation time, with empty message log and
title `"New Chat"`, and makes it current; when that timestamp string is
not already among the conversation ids (distinct milliseconds), the ids
remain pairwise distinct. -/
theorem handleNewChat_fresh (now : Nat) (s : AppStore)
    (h : toString now ∉ s.conversations.map (fun c => c.id))
    (hnodup : (s.conversations.map (fun c => c.id)).Nodup) :
    (handleNewChat now s).conversations
      = s.conversations ++ [⟨toString now, "New Chat", now, []⟩] ∧
    (handleNewChat now s).currentConversationId = toString now ∧
    (handleNewChat now s).messages = [] ∧
    ((handleNewChat now s).conversations.map (fun c => c.id)).Nodup := by
  refine ⟨rfl, rfl, rfl, ?_⟩
  show ((s.conversations
      ++ [({ id := toString now, title := "New Chat", timestamp := now,
             messages := [] } : Conversation)]).map (fun c => c.id)).Nodup
  rw [List.map_append, List.nodup_append]
  exact ⟨hnodup, List.nodup_singleton _, by simpa using h⟩

/-- Witness for C8 from the bootstrap store at time 7. -/
theorem handleNewChat_fresh_witness :
    (handleNewChat 7 (initialState 0)).conversations
      = (initialState 0).conversations ++ [⟨toString 7, "New Chat", 7, []⟩] ∧
    (handleNewChat 7 (initialState 0)).currentConversationId = toString 7 ∧
    (handleNewChat 7 (initialState 0)).messages = [] ∧
    ((handleNewChat 7 (initialState 0)).conversations.map (fun c => c.id)).Nodup :=
  handleNewChat_fresh 7 (initialState 0) (by decide) (by decide)

/-- Claim C9: the scanner is a total function (every Lean definition here
is total, so it terminates and cannot throw); on the empty string it
yields the empty finding sequence, and on any input its findings are a
subsequence of the registered category list. -/
theorem scan_total_and_empty :
    scan "".data = [] ∧ ∀ s : String, List.Sublist (scan s.data) patterns :=
  ⟨rfl, fun _ => List.filter_sublist _⟩

/-- Claim C10: each store mutation changes exactly its own field — the
record-update equalities pin every other field, and hence every existing
conversation's message log, unchanged; `addConversation` keeps the
existing conversations verbatim as the prefix of the new list. -/
theorem store_frame_conditions (m : Message) (d : Document) (c : Conversation)
    (model id : String) (s : AppStore) :
    addMessage m s = { s with messages := s.messages ++ [m] } ∧
    addDocument d s = { s with documents := s.documents ++ [d] } ∧
    setSelectedModel model s = { s with selectedModel := model } ∧
    addConversation c s = { s with conversations := s.conversations ++ [c] } ∧
    setCurrentConversation id s = { s with currentConversationId := id } ∧
    (addConversation c s).conversations.take s.conversations.length
      = s.conversations :=
  ⟨rfl, rfl, rfl, rfl, rfl, List.take_left _ _⟩

end BearAI
